import Mathlib

/-!
Verification development for the PharmaSentinel order-management frontend
(repository `insolvent`): a shallow embedding of the orders table schema
(`db/create_orders_table.sql`, `db/update_orders_status.sql`), of the
operator operations in `frontend/src/pages/OrdersPage.tsx` (`createOrder`,
`confirmOrder`, the order-tracking render), and of the alert card with its
evidence panel (`AlertCard`, `SourceTypeBadge`, `SourceIcon`).

Modelling conventions:
- Supabase writes are modelled by pure functions on an explicit `Store`
  (lists of order and alert rows) paired with the list of `Effect`s the
  function issues (inserts, updates, HTTP POSTs).
- Nullable columns are `Option`.  UUID-typed columns (`id`, `drug_id`,
  `alert_id`, `supplier_id`) are `Option String` whose `some` values stand
  for well-formed UUIDs, which are never the empty string; hence the
  JavaScript truthiness guard `if (!alert.drug_id)` is modelled as
  `Option.isNone`.  Free-text fields (evidence `description`,
  `source_url`) can be empty strings, so JSX conditionals of the form
  `{e.description && ...}` are modelled with explicit string truthiness.
- Monetary fields (`unit_price`, `total_price`) are integers standing for
  the JavaScript numbers; no claim depends on their arithmetic.
-/

namespace Pharma

/-- One evidence snapshot inside an alert's `action_payload`
(`{source_type, data_value, description, source_url}`). -/
structure Evidence where
  source_type : String
  data_value : String
  description : Option String
  source_url : Option String
deriving DecidableEq, Repr

/-- The `action_payload` JSON column of an alert; the alert card reads
`alert.action_payload?.evidence`. -/
structure ActionPayload where
  evidence : Option (List Evidence)
deriving DecidableEq, Repr

/-- A row of the `alerts` table, with the fields the frontend reads. -/
structure Alert where
  id : String
  alert_type : String
  severity : String
  title : String
  description : String
  drug_id : Option String
  drug_name : Option String
  acknowledged : Bool
  created_at : String
  action_payload : Option ActionPayload
deriving DecidableEq, Repr

/-- `alert.action_payload?.evidence || []` in `AlertCard`. -/
def alertEvidence (a : Alert) : List Evidence :=
  (a.action_payload.bind (fun p => p.evidence)).getD []

/-- A row of the `orders` table (`db/create_orders_table.sql`). -/
structure Order where
  id : String
  drug_id : Option String
  alert_id : Option String
  quantity : Int
  status : String
  supplier_id : Option String
  notes : Option String
  unit_price : Option Int
  total_price : Option Int
deriving DecidableEq, Repr

/-- The status values accepted by the original CHECK constraint in
`db/create_orders_table.sql`. -/
def ordersStatusValuesV1 : List String :=
  ["PENDING", "CONFIRMED", "PROCESSING", "PLACED", "FAILED", "CANCELLED"]

/-- The status values accepted after `db/update_orders_status.sql` replaces
the constraint (`orders_status_check`). -/
def ordersStatusValues : List String :=
  ["PENDING", "ANALYZING", "SUGGESTED", "CONFIRMED", "PROCESSING",
   "PLACED", "FAILED", "CANCELLED"]

/-- The CHECK constraint `orders_status_check` as installed by
`db/update_orders_status.sql`: `status IN (...)`. -/
def orders_status_check (st : String) : Bool :=
  decide (st ∈ ordersStatusValues)

/-- Modelled from the spec: the six order state-machine states
PENDING, ANALYZING, SUGGESTED, PLACED, FAILED, CANCELLED. -/
def specStateMachineStatuses : List String :=
  ["PENDING", "ANALYZING", "SUGGESTED", "PLACED", "FAILED", "CANCELLED"]

/-- Modelled from the spec: the order-status transition graph
{PENDING→ANALYZING, ANALYZING→SUGGESTED, ANALYZING→FAILED,
SUGGESTED→PLACED, any state except PLACED/FAILED/CANCELLED → CANCELLED}. -/
def specTransitionOk (a b : String) : Bool :=
  (a == "PENDING" && b == "ANALYZING") ||
  (a == "ANALYZING" && b == "SUGGESTED") ||
  (a == "ANALYZING" && b == "FAILED") ||
  (a == "SUGGESTED" && b == "PLACED") ||
  (b == "CANCELLED" && !(a == "PLACED" || a == "FAILED" || a == "CANCELLED"))

/-- The effects (database writes and HTTP calls) an operation issues. -/
inductive Effect where
  | orderInsert (o : Order)
  | alertAcknowledge (aid : String)
  | analyzeOrderPost (oid : String)
  | orderStatusUpdate (oid : String) (newStatus : String)
deriving DecidableEq, Repr

/-- The status value a write effect stores into `orders.status`, if any. -/
def writtenStatus : Effect → Option String
  | Effect.orderInsert o => some o.status
  | Effect.orderStatusUpdate _ st => some st
  | _ => none

/-- The durable store the page operates on: the `orders` and `alerts`
tables, each a list of rows. -/
structure Store where
  orders : List Order
  alerts : List Alert
deriving DecidableEq, Repr

/-- The `alerts` update issued at step 2 of `createOrder`
(`update({ acknowledged: true }).eq('id', alert.id)`); also the shape of
the update behind `AlertCard`'s `onAcknowledge` callback. -/
def acknowledgeAlert (alerts : List Alert) (aid : String) : List Alert :=
  alerts.map (fun a => if a.id = aid then { a with acknowledged := true } else a)

/-- The order row inserted by step 1 of `createOrder`, with the
database-assigned id `oid`; unset columns take their defaults
(`supplier_id`/prices NULL, status text as written). -/
def mkOrderFromAlert (alert : Alert) (oid : String) : Order :=
  { id := oid
    drug_id := alert.drug_id
    alert_id := some alert.id
    quantity := 100
    status := "PENDING"
    supplier_id := none
    notes := some ("Triggered by alert: " ++ alert.title)
    unit_price := none
    total_price := none }

/-- `createOrder` in `OrdersPage.tsx` (the Start Order action):
guard on `alert.drug_id`, insert a PENDING order, acknowledge the alert,
then fire-and-forget `POST /api/analyze-order/{id}`.  `insertResult` is
the outcome of the insert (`none` = error, `some oid` = the created row's
id); `triggerOk` records whether the POST succeeds — its failure is caught
and only logged, so the result cannot depend on it. -/
def createOrder (alert : Alert) (insertResult : Option String)
    (triggerOk : Bool) (s : Store) : Store × List Effect :=
  match alert.drug_id with
  | none => (s, [])
  | some _ =>
    match insertResult with
    | none => (s, [])
    | some oid =>
      let newOrder := mkOrderFromAlert alert oid
      let s1 : Store := { s with orders := newOrder :: s.orders }
      let s2 : Store := { s1 with alerts := acknowledgeAlert s1.alerts alert.id }
      let _ := triggerOk
      (s2, [Effect.orderInsert newOrder, Effect.alertAcknowledge alert.id,
            Effect.analyzeOrderPost oid])

/-- `confirmOrder` in `OrdersPage.tsx`: return immediately when
`order.supplier_id` is null, otherwise issue
`update({ status: 'PLACED' }).eq('id', order.id)`. -/
def confirmOrder (order : Order) (s : Store) : Store × List Effect :=
  match order.supplier_id with
  | none => (s, [])
  | some _ =>
    ({ s with
        orders := s.orders.map (fun o =>
          if o.id = order.id then { o with status := "PLACED" } else o) },
     [Effect.orderStatusUpdate order.id "PLACED"])

/-- The render guard on the Confirm button in the tracking table:
`{order.status === 'SUGGESTED' && (<Button ...>)}`. -/
def confirmButtonShown (o : Order) : Bool :=
  o.status == "SUGGESTED"

/-- JavaScript truthiness of a string: only the empty string is falsy. -/
def jsStringTruthy (s : String) : Bool :=
  s != ""

/-- One rendered fragment of the Suggestion cell in the tracking table
(`OrdersPage.tsx`, the fourth `<td>`). -/
inductive CellPiece where
  | waitingMsg
  | analyzingMsg
  | supplierLine (supplierName : String) (qty : Int)
  | priceLine (total : Int) (unit : Option Int)
  | notesLine (notes : String)
  | failedNote (notes : String)
deriving DecidableEq, Repr

/-- The Suggestion cell of one tracking-table row: conditional fragments
keyed on `order.status`, in source order.  `supplierName` is the joined
`order.supplier?.name`; `{order.total_price && ...}` uses number
truthiness, so a zero price renders no price line; `{order.notes}` inside
the notes/FAILED spans renders the notes text or nothing when null. -/
def renderSuggestionCell (o : Order) (supplierName : String) : List CellPiece :=
  (if o.status = "PENDING" then [CellPiece.waitingMsg] else []) ++
  (if o.status = "ANALYZING" then [CellPiece.analyzingMsg] else []) ++
  (if o.status = "SUGGESTED" ∨ o.status = "PLACED" then
    [CellPiece.supplierLine supplierName o.quantity] ++
    (match o.total_price with
     | some tp => if tp ≠ 0 then [CellPiece.priceLine tp o.unit_price] else []
     | none => []) ++
    [CellPiece.notesLine (o.notes.getD "")]
   else []) ++
  (if o.status = "FAILED" then [CellPiece.failedNote (o.notes.getD "")] else [])

/-- The status badge class in the Status cell of the tracking table. -/
def statusBadgeClass (st : String) : String :=
  if st = "PENDING" then "bg-gray-100 text-gray-800"
  else if st = "ANALYZING" then "bg-blue-100 text-blue-800 animate-pulse"
  else if st = "SUGGESTED" then "bg-purple-100 text-purple-800"
  else if st = "PLACED" then "bg-green-100 text-green-800"
  else "bg-red-100 text-red-800"

/-- `SourceIcon` in `AlertCard.tsx`: icon component name and colour class
per evidence source type, with a gray Database icon as the default case. -/
def sourceIcon (t : String) : String × String :=
  if t = "INVENTORY" then ("Database", "text-blue-600")
  else if t = "FDA" then ("FileText", "text-green-600")
  else if t = "NEWS" then ("Newspaper", "text-purple-600")
  else if t = "SURGERY_SCHEDULE" then ("Calendar", "text-orange-600")
  else ("Database", "text-gray-600")

/-- The `colors` record lookup in `SourceTypeBadge`: `none` models a
missing key (JavaScript `undefined`). -/
def sourceTypeBadgeColors (t : String) : Option String :=
  if t = "INVENTORY" then some "bg-blue-100 text-blue-800"
  else if t = "FDA" then some "bg-green-100 text-green-800"
  else if t = "NEWS" then some "bg-purple-100 text-purple-800"
  else if t = "SURGERY_SCHEDULE" then some "bg-orange-100 text-orange-800"
  else none

/-- `colors[type] || 'bg-gray-100 text-gray-800'` in `SourceTypeBadge`
(every stored colour class is a non-empty, hence truthy, string). -/
def sourceTypeBadgeClass (t : String) : String :=
  match sourceTypeBadgeColors t with
  | some c => c
  | none => "bg-gray-100 text-gray-800"

/-- The `severityBorderColor` record lookup in `AlertCard`. -/
def severityBorderColorLookup (sev : String) : Option String :=
  if sev = "CRITICAL" then some "border-l-red-500 bg-red-50"
  else if sev = "URGENT" then some "border-l-orange-500 bg-orange-50"
  else if sev = "WARNING" then some "border-l-yellow-500 bg-yellow-50"
  else if sev = "INFO" then some "border-l-blue-500 bg-blue-50"
  else none

/-- `severityBorderColor[alert.severity] || 'border-l-gray-300 bg-white'`
on the alert card's outer div. -/
def alertCardBorderClass (sev : String) : String :=
  match severityBorderColorLookup sev with
  | some c => c
  | none => "border-l-gray-300 bg-white"

/-- What the evidence panel renders for one evidence entry: the source-type
badge (class, icon, label text), the `data_value` line, and the optional
description line and source link, which appear only when the corresponding
field is truthy (`{e.description && ...}`, `{e.source_url && ...}`). -/
structure EvidenceEntryView where
  badgeClass : String
  badgeIcon : String × String
  badgeLabel : String
  valueLine : String
  descriptionLine : Option String
  sourceLink : Option String
deriving DecidableEq, Repr

/-- The body of `evidence.map((e, idx) => ...)` in `AlertCard`'s evidence
panel, for one entry. -/
def renderEvidenceEntry (e : Evidence) : EvidenceEntryView :=
  { badgeClass := sourceTypeBadgeClass e.source_type
    badgeIcon := sourceIcon e.source_type
    badgeLabel := e.source_type
    valueLine := e.data_value
    descriptionLine :=
      match e.description with
      | some d => if jsStringTruthy d then some d else none
      | none => none
    sourceLink :=
      match e.source_url with
      | some u => if jsStringTruthy u then some u else none
      | none => none }

/-- The whole evidence panel: one rendered entry per evidence element. -/
def renderEvidencePanel (evs : List Evidence) : List EvidenceEntryView :=
  evs.map renderEvidenceEntry

/-! ### Concrete rows used to instantiate theorems -/

/-- An order in status PENDING that already has a supplier selected. -/
def pendingWithSupplier : Order :=
  { id := "o1", drug_id := some "d1", alert_id := none, quantity := 100,
    status := "PENDING", supplier_id := some "s1", notes := none,
    unit_price := none, total_price := none }

/-- An order in status ANALYZING that already has a supplier selected. -/
def analyzingWithSupplier : Order :=
  { id := "o2", drug_id := some "d1", alert_id := none, quantity := 100,
    status := "ANALYZING", supplier_id := some "s1", notes := none,
    unit_price := none, total_price := none }

/-- An order in status SUGGESTED with a supplier selected. -/
def suggestedWithSupplier : Order :=
  { id := "o3", drug_id := some "d1", alert_id := none, quantity := 50,
    status := "SUGGESTED", supplier_id := some "s1", notes := some "best price",
    unit_price := some 2, total_price := some 100 }

/-- An order in status SUGGESTED with no supplier selected yet. -/
def suggestedNoSupplier : Order :=
  { id := "o4", drug_id := some "d1", alert_id := none, quantity := 50,
    status := "SUGGESTED", supplier_id := none, notes := none,
    unit_price := none, total_price := none }

/-- An order in terminal status FAILED carrying an explanatory note. -/
def failedOrder : Order :=
  { id := "o5", drug_id := some "d1", alert_id := none, quantity := 100,
    status := "FAILED", supplier_id := none, notes := some "no active supplier",
    unit_price := none, total_price := none }

/-- A store holding just `suggestedWithSupplier`. -/
def suggestedStore : Store :=
  { orders := [suggestedWithSupplier], alerts := [] }

/-- The row pair traced by confirming `suggestedWithSupplier`. -/
def suggestedPlacedPair : Order × Order :=
  (suggestedWithSupplier, { suggestedWithSupplier with status := "PLACED" })

/-! ### Helper lemmas -/

/-- Zipping a list with its image under `f` pairs each element with its
image. -/
theorem mem_zip_map {α β : Type} (f : α → β) :
    ∀ (l : List α) (p : α × β), p ∈ l.zip (l.map f) → p.1 ∈ l ∧ p.2 = f p.1 := by
  intro l
  induction l with
  | nil => intro p hp; simp at hp
  | cons a t ih =>
    intro p hp
    simp only [List.map_cons, List.zip_cons_cons, List.mem_cons] at hp
    rcases hp with h | h
    · subst h; exact ⟨List.mem_cons_self a t, rfl⟩
    · rcases ih p h with ⟨h1, h2⟩
      exact ⟨List.mem_cons_of_mem a h1, h2⟩

/-! ### Claims -/

/-- C1 (counterexample): neither the schema constraint nor `confirmOrder`
enforces the spec's transition graph — `confirmOrder` applied to a PENDING
order with a supplier stores PLACED, a PENDING→PLACED move that is outside
the graph, while both endpoint values pass `orders_status_check`. -/
theorem confirmOrder_pending_order_leaves_graph :
    orders_status_check "PENDING" = true ∧
    orders_status_check "PLACED" = true ∧
    ((confirmOrder pendingWithSupplier
        { orders := [pendingWithSupplier], alerts := [] }).1.orders.map Order.status)
      = ["PLACED"] ∧
    specTransitionOk "PENDING" "PLACED" = false := by
  decide

/-- C1 (amended): the schema constrains only the set of status values, not
transitions; the program's own writes stay on the graph only on the
UI-exposed path — when `confirmOrder` runs against a store whose rows for
that order id are in status SUGGESTED (the only case the UI renders the
Confirm button) every row either keeps its status or makes the graph edge
SUGGESTED→PLACED, and `createOrder` creates orders in the initial state
PENDING. -/
theorem ui_guarded_updates_follow_graph :
    (∀ (o : Order) (s : Store),
        (∀ r ∈ s.orders, r.id = o.id → r.status = "SUGGESTED") →
        o.supplier_id.isSome = true →
        ∀ p ∈ s.orders.zip (confirmOrder o s).1.orders,
          p.2.status = p.1.status ∨ specTransitionOk p.1.status p.2.status = true) ∧
    (∀ (a : Alert) (oid : String), (mkOrderFromAlert a oid).status = "PENDING") := by
  constructor
  · intro o s hsugg hsup p hp
    obtain ⟨sid, hsid⟩ := Option.isSome_iff_exists.mp hsup
    simp only [confirmOrder, hsid] at hp
    obtain ⟨hmem, heq⟩ := mem_zip_map _ _ _ hp
    by_cases hid : p.1.id = o.id
    · right
      have hst : p.1.status = "SUGGESTED" := hsugg p.1 hmem hid
      rw [heq]
      simp [hid, hst, specTransitionOk]
    · left
      rw [heq]
      simp [hid]
  · intro a oid
    rfl

/-- Witness for C1 (amended): confirming `suggestedWithSupplier` in a
singleton store moves that row along SUGGESTED→PLACED, an edge of the
graph. -/
theorem ui_guarded_updates_follow_graph_witness :
    suggestedPlacedPair.2.status = suggestedPlacedPair.1.status ∨
      specTransitionOk suggestedPlacedPair.1.status suggestedPlacedPair.2.status = true :=
  ui_guarded_updates_follow_graph.1 suggestedWithSupplier suggestedStore
    (by decide) (by decide) suggestedPlacedPair (by decide)

/-- C3 (counterexample): `confirmOrder` does not check the current status —
invoked on an order in status ANALYZING with a supplier selected, it
changes that order's stored status to PLACED rather than leaving it
unchanged. -/
theorem confirmOrder_changes_non_suggested_order :
    analyzingWithSupplier.status = "ANALYZING" ∧
    ((confirmOrder analyzingWithSupplier
        { orders := [analyzingWithSupplier], alerts := [] }).1.orders.map Order.status)
      = ["PLACED"] := by
  decide

/-- C3 (amended): the confirm operation guards only on `supplier_id` — with
a null supplier it performs no write at all, and with a supplier selected
it sets the named order's stored status to PLACED regardless of its current
status, leaving every other row unchanged; the SUGGESTED-only restriction
is enforced by the UI, which renders the Confirm button exactly for orders
in status SUGGESTED. -/
theorem confirmOrder_guards_on_supplier_ui_guards_on_status :
    (∀ (o : Order) (s : Store), o.supplier_id = none → confirmOrder o s = (s, [])) ∧
    (∀ o : Order, confirmButtonShown o = true ↔ o.status = "SUGGESTED") ∧
    (∀ (o : Order) (s : Store) (sid : String), o.supplier_id = some sid →
        ∀ p ∈ s.orders.zip (confirmOrder o s).1.orders,
          (p.1.id = o.id → p.2.status = "PLACED") ∧ (p.1.id ≠ o.id → p.2 = p.1)) := by
  refine ⟨?_, ?_, ?_⟩
  · intro o s h
    simp [confirmOrder, h]
  · intro o
    simp [confirmButtonShown]
  · intro o s sid hsid p hp
    simp only [confirmOrder, hsid] at hp
    obtain ⟨_, heq⟩ := mem_zip_map _ _ _ hp
    constructor
    · intro hid
      rw [heq]
      simp [hid]
    · intro hid
      rw [heq]
      simp [hid]

/-- Witness for C3 (amended): confirming `suggestedNoSupplier` (no supplier
selected) leaves the singleton store untouched and issues no write. -/
theorem confirmOrder_guards_on_supplier_witness :
    confirmOrder suggestedNoSupplier { orders := [suggestedNoSupplier], alerts := [] }
      = ({ orders := [suggestedNoSupplier], alerts := [] }, []) :=
  confirmOrder_guards_on_supplier_ui_guards_on_status.1 suggestedNoSupplier
    { orders := [suggestedNoSupplier], alerts := [] } rfl

/-- C5: a tracking-table row for an order in status FAILED renders, as its
Suggestion cell, exactly the red note span carrying the order's `notes`
field. -/
theorem failed_order_renders_notes (o : Order) (supplierName : String)
    (h : o.status = "FAILED") :
    renderSuggestionCell o supplierName = [CellPiece.failedNote (o.notes.getD "")] := by
  simp [renderSuggestionCell, h]

/-- Witness for C5: the concrete FAILED order renders exactly its note. -/
theorem failed_order_renders_notes_witness :
    renderSuggestionCell failedOrder "Acme" = [CellPiece.failedNote "no active supplier"] :=
  failed_order_renders_notes failedOrder "Acme" rfl

/-- C8: with a null `supplier_id`, `confirmOrder` returns before issuing
any write — the store is unchanged and the effect list is empty — and
conversely any invocation that issues a write had a supplier selected, so
an order is never marked PLACED through this operation without one. -/
theorem confirmOrder_no_write_without_supplier (o : Order) (s : Store) :
    (o.supplier_id = none → confirmOrder o s = (s, [])) ∧
    ((confirmOrder o s).2 ≠ [] → o.supplier_id.isSome = true) := by
  constructor
  · intro h
    simp [confirmOrder, h]
  · intro h
    cases hs : o.supplier_id with
    | none => simp [confirmOrder, hs] at h
    | some sid => rfl

/-- Witness for C8: the supplier-less SUGGESTED order is left untouched. -/
theorem confirmOrder_no_write_without_supplier_witness :
    confirmOrder suggestedNoSupplier suggestedStore = (suggestedStore, []) :=
  (confirmOrder_no_write_without_supplier suggestedNoSupplier suggestedStore).1 rfl

/-- C10: the alert-card style lookups are total — for every severity string
the border class is a non-empty class string, falling back to the
gray/white style outside {CRITICAL, URGENT, WARNING, INFO}, and for every
evidence source type the badge class is non-empty, falling back to the gray
badge with the default gray Database icon outside
{INVENTORY, FDA, NEWS, SURGERY_SCHEDULE}. -/
theorem alert_card_styles_total (sev t : String) :
    alertCardBorderClass sev ≠ "" ∧
    ((sev ≠ "CRITICAL" ∧ sev ≠ "URGENT" ∧ sev ≠ "WARNING" ∧ sev ≠ "INFO") →
      alertCardBorderClass sev = "border-l-gray-300 bg-white") ∧
    sourceTypeBadgeClass t ≠ "" ∧
    ((t ≠ "INVENTORY" ∧ t ≠ "FDA" ∧ t ≠ "NEWS" ∧ t ≠ "SURGERY_SCHEDULE") →
      sourceTypeBadgeClass t = "bg-gray-100 text-gray-800" ∧
      sourceIcon t = ("Database", "text-gray-600")) := by
  refine ⟨?_, ?_, ?_, ?_⟩
  · unfold alertCardBorderClass severityBorderColorLookup
    split_ifs <;> decide
  · intro ⟨h1, h2, h3, h4⟩
    unfold alertCardBorderClass severityBorderColorLookup
    split_ifs <;> simp_all
  · unfold sourceTypeBadgeClass sourceTypeBadgeColors
    split_ifs <;> decide
  · intro ⟨h1, h2, h3, h4⟩
    unfold sourceTypeBadgeClass sourceTypeBadgeColors sourceIcon
    split_ifs <;> simp_all

/-- Witness for C10: an unknown severity and an unknown source type get the
fallback styles. -/
theorem alert_card_styles_total_witness :
    alertCardBorderClass "SEVERE" = "border-l-gray-300 bg-white" :=
  (alert_card_styles_total "SEVERE" "OTHER").2.1 (by decide)

/-- A restock alert with a drug attached, as listed on the Action Required
tab. -/
def restockAlert : Alert :=
  { id := "a1", alert_type := "RESTOCK_NOW", severity := "CRITICAL",
    title := "Epinephrine critically low", description := "stock below reorder point",
    drug_id := some "d1", drug_name := some "Epinephrine",
    acknowledged := false, created_at := "t0", action_payload := none }

/-- A store with no orders and no alerts. -/
def emptyStore : Store :=
  { orders := [], alerts := [] }

/-- An evidence entry whose optional description is present but empty. -/
def emptyDescEvidence : Evidence :=
  { source_type := "INVENTORY", data_value := "stock: 5 units",
    description := some "", source_url := none }

/-- An evidence entry with all optional fields present and non-empty. -/
def fdaEvidence : Evidence :=
  { source_type := "FDA", data_value := "shortage listed",
    description := some "FDA database entry", source_url := some "https://fda.example" }

/-- C2 (counterexample): the check constraint installed by
`update_orders_status.sql` accepts the status value CONFIRMED, which is not
one of the six state-machine states, so the orders table accepts status
values outside {PENDING, ANALYZING, SUGGESTED, PLACED, FAILED, CANCELLED}. -/
theorem status_check_accepts_confirmed :
    orders_status_check "CONFIRMED" = true ∧
    specStateMachineStatuses.contains "CONFIRMED" = false := by
  decide

/-- C2 (amended): the check constraint accepts exactly the eight values
PENDING, ANALYZING, SUGGESTED, CONFIRMED, PROCESSING, PLACED, FAILED,
CANCELLED — the six state-machine states (all accepted) plus the legacy
CONFIRMED and PROCESSING — while the program's own operations only ever
store status values among the six. -/
theorem status_check_eight_values_ops_write_six :
    (∀ st, orders_status_check st = true ↔ st ∈ ordersStatusValues) ∧
    (∀ st ∈ specStateMachineStatuses, orders_status_check st = true) ∧
    (∀ (a : Alert) (ins : Option String) (tok : Bool) (s : Store),
        ∀ e ∈ (createOrder a ins tok s).2, ∀ st, writtenStatus e = some st →
          st ∈ specStateMachineStatuses) ∧
    (∀ (o : Order) (s : Store),
        ∀ e ∈ (confirmOrder o s).2, ∀ st, writtenStatus e = some st →
          st ∈ specStateMachineStatuses) := by
  refine ⟨?_, ?_, ?_, ?_⟩
  · intro st
    simp [orders_status_check]
  · intro st hst
    simp only [specStateMachineStatuses, List.mem_cons, List.not_mem_nil, or_false] at hst
    rcases hst with rfl | rfl | rfl | rfl | rfl | rfl <;> decide
  · intro a ins tok s e he st hw
    cases hd : a.drug_id with
    | none => simp [createOrder, hd] at he
    | some d =>
      cases ins with
      | none => simp [createOrder, hd] at he
      | some oid =>
        simp only [createOrder, hd, List.mem_cons, List.not_mem_nil, or_false] at he
        rcases he with rfl | rfl | rfl
        · simp only [writtenStatus, mkOrderFromAlert, Option.some.injEq] at hw
          subst hw
          decide
        · simp [writtenStatus] at hw
        · simp [writtenStatus] at hw
  · intro o s e he st hw
    cases hs : o.supplier_id with
    | none => simp [confirmOrder, hs] at he
    | some sid =>
      simp only [confirmOrder, hs, List.mem_cons, List.not_mem_nil, or_false] at he
      subst he
      simp only [writtenStatus, Option.some.injEq] at hw
      subst hw
      decide

/-- Witness for C2 (amended): ANALYZING is accepted by the constraint. -/
theorem status_check_eight_values_witness :
    "ANALYZING" ∈ ordersStatusValues :=
  (status_check_eight_values_ops_write_six.1 "ANALYZING").mp (by decide)

/-- C4: for an alert with a non-null drug id, when the order insert
succeeds the Start Order operation adds exactly one order row, in status
PENDING, whose `drug_id` and `alert_id` record the triggering alert, and
issues both the insert of that row and the
`POST /api/analyze-order/{id}` trigger for the newly created order id. -/
theorem start_order_creates_pending_and_triggers (alert : Alert) (oid : String)
    (tok : Bool) (s : Store) (hd : alert.drug_id.isSome = true) :
    ((createOrder alert (some oid) tok s).1.orders.length = s.orders.length + 1) ∧
    (∃ o ∈ (createOrder alert (some oid) tok s).1.orders,
        o.id = oid ∧ o.status = "PENDING" ∧ o.drug_id = alert.drug_id ∧
        o.alert_id = some alert.id) ∧
    Effect.analyzeOrderPost oid ∈ (createOrder alert (some oid) tok s).2 ∧
    Effect.orderInsert (mkOrderFromAlert alert oid) ∈ (createOrder alert (some oid) tok s).2 := by
  obtain ⟨d, hdd⟩ := Option.isSome_iff_exists.mp hd
  refine ⟨?_, ⟨mkOrderFromAlert alert oid, ?_, rfl, rfl, rfl, rfl⟩, ?_, ?_⟩
  · simp [createOrder, hdd]
  · simp [createOrder, hdd]
  · simp [createOrder, hdd]
  · simp [createOrder, hdd]

/-- Witness for C4: starting an order from the concrete restock alert
issues the analyze-order POST for the created order id. -/
theorem start_order_creates_pending_witness :
    Effect.analyzeOrderPost "o9" ∈ (createOrder restockAlert (some "o9") true emptyStore).2 :=
  (start_order_creates_pending_and_triggers restockAlert "o9" true emptyStore rfl).2.2.1

/-- C6: the acknowledge update sets only the `acknowledged` flag — every
other field of every alert row is unchanged, rows with a different id are
untouched — and none of the program's operations removes an alert row
(`createOrder` preserves the alert id list, `confirmOrder` leaves the
alerts table untouched). -/
theorem acknowledge_sets_only_flag_and_never_deletes :
    (∀ (alerts : List Alert) (aid : String),
        (acknowledgeAlert alerts aid).length = alerts.length ∧
        ∀ p ∈ alerts.zip (acknowledgeAlert alerts aid),
          p.2.id = p.1.id ∧ p.2.alert_type = p.1.alert_type ∧
          p.2.severity = p.1.severity ∧ p.2.title = p.1.title ∧
          p.2.description = p.1.description ∧ p.2.drug_id = p.1.drug_id ∧
          p.2.drug_name = p.1.drug_name ∧ p.2.created_at = p.1.created_at ∧
          p.2.action_payload = p.1.action_payload ∧
          (p.1.id = aid → p.2.acknowledged = true) ∧
          (p.1.id ≠ aid → p.2 = p.1)) ∧
    (∀ (a : Alert) (ins : Option String) (tok : Bool) (s : Store),
        (createOrder a ins tok s).1.alerts.map Alert.id = s.alerts.map Alert.id) ∧
    (∀ (o : Order) (s : Store), (confirmOrder o s).1.alerts = s.alerts) := by
  refine ⟨?_, ?_, ?_⟩
  · intro alerts aid
    refine ⟨by simp [acknowledgeAlert], ?_⟩
    intro p hp
    simp only [acknowledgeAlert] at hp
    obtain ⟨_, heq⟩ := mem_zip_map _ _ _ hp
    rw [heq]
    by_cases hid : p.1.id = aid <;> simp [hid]
  · intro a ins tok s
    cases hd : a.drug_id with
    | none => simp [createOrder, hd]
    | some d =>
      cases ins with
      | none => simp [createOrder, hd]
      | some oid =>
        simp only [createOrder, hd, acknowledgeAlert, List.map_map]
        apply List.map_congr_left
        intro x _
        by_cases hid : x.id = a.id <;> simp [hid]
  · intro o s
    cases hs : o.supplier_id <;> simp [confirmOrder, hs]

/-- Witness for C6: acknowledging the concrete restock alert keeps the
alert list length. -/
theorem acknowledge_sets_only_flag_witness :
    (acknowledgeAlert [restockAlert] "a1").length = [restockAlert].length :=
  (acknowledge_sets_only_flag_and_never_deletes.1 [restockAlert] "a1").1

/-- C7 (counterexample): an evidence entry whose optional `description` is
present but equal to the empty string is present yet not rendered — the JSX
guard `{e.description && ...}` uses string truthiness, so the rendered
description line is `none`. -/
theorem evidence_empty_description_not_rendered :
    emptyDescEvidence.description.isSome = true ∧
    (renderEvidenceEntry emptyDescEvidence).descriptionLine = none := by
  decide

/-- C7 (amended): for every evidence entry the panel renders the
`data_value` line and a badge labelled with the entry's `source_type`
(carrying the per-type colour class and icon for INVENTORY, FDA, NEWS and
SURGERY_SCHEDULE), and renders the description line and source link exactly
when the corresponding optional field is present and non-empty. -/
theorem evidence_entry_renders_value_badge_truthy_fields (e : Evidence) :
    (renderEvidenceEntry e).badgeLabel = e.source_type ∧
    (renderEvidenceEntry e).valueLine = e.data_value ∧
    (renderEvidenceEntry e).badgeIcon = sourceIcon e.source_type ∧
    (e.source_type = "INVENTORY" →
        (renderEvidenceEntry e).badgeClass = "bg-blue-100 text-blue-800") ∧
    (e.source_type = "FDA" →
        (renderEvidenceEntry e).badgeClass = "bg-green-100 text-green-800") ∧
    (e.source_type = "NEWS" →
        (renderEvidenceEntry e).badgeClass = "bg-purple-100 text-purple-800") ∧
    (e.source_type = "SURGERY_SCHEDULE" →
        (renderEvidenceEntry e).badgeClass = "bg-orange-100 text-orange-800") ∧
    ((renderEvidenceEntry e).descriptionLine
        = if e.description.getD "" = "" then none else e.description) ∧
    ((renderEvidenceEntry e).sourceLink
        = if e.source_url.getD "" = "" then none else e.source_url) := by
  refine ⟨rfl, rfl, rfl, ?_, ?_, ?_, ?_, ?_, ?_⟩
  · intro h
    simp [renderEvidenceEntry, sourceTypeBadgeClass, sourceTypeBadgeColors, h]
  · intro h
    simp [renderEvidenceEntry, sourceTypeBadgeClass, sourceTypeBadgeColors, h]
  · intro h
    simp [renderEvidenceEntry, sourceTypeBadgeClass, sourceTypeBadgeColors, h]
  · intro h
    simp [renderEvidenceEntry, sourceTypeBadgeClass, sourceTypeBadgeColors, h]
  · cases hd : e.description with
    | none => simp [renderEvidenceEntry, hd]
    | some d =>
      by_cases hde : d = "" <;>
        simp [renderEvidenceEntry, jsStringTruthy, hd, hde]
  · cases hu : e.source_url with
    | none => simp [renderEvidenceEntry, hu]
    | some u =>
      by_cases hue : u = "" <;>
        simp [renderEvidenceEntry, jsStringTruthy, hu, hue]

/-- Witness for C7 (amended): the concrete FDA evidence entry gets the
green FDA badge class. -/
theorem evidence_entry_render_witness :
    (renderEvidenceEntry fdaEvidence).badgeClass = "bg-green-100 text-green-800" :=
  (evidence_entry_renders_value_badge_truthy_fields fdaEvidence).2.2.2.2.1 rfl

/-- C9: the Start Order flow is not transactional — the final store does
not depend on whether the analyze-order POST succeeds, and on trigger
failure the created order is still present in status PENDING and the
triggering alert is still acknowledged; nothing is rolled back. -/
theorem start_order_trigger_failure_rolls_nothing_back (alert : Alert) (oid : String)
    (s : Store) (hd : alert.drug_id.isSome = true) :
    createOrder alert (some oid) false s = createOrder alert (some oid) true s ∧
    (∃ o ∈ (createOrder alert (some oid) false s).1.orders,
        o.id = oid ∧ o.status = "PENDING") ∧
    (∀ p ∈ s.alerts.zip (createOrder alert (some oid) false s).1.alerts,
        p.1.id = alert.id → p.2.acknowledged = true) := by
  obtain ⟨d, hdd⟩ := Option.isSome_iff_exists.mp hd
  refine ⟨by simp [createOrder, hdd], ?_, ?_⟩
  · exact ⟨mkOrderFromAlert alert oid, by simp [createOrder, hdd], rfl, rfl⟩
  · intro p hp hid
    simp only [createOrder, hdd, acknowledgeAlert] at hp
    obtain ⟨_, heq⟩ := mem_zip_map _ _ _ hp
    rw [heq]
    simp [hid]

/-- Witness for C9: from the empty store, a failed trigger yields the same
store as a successful one. -/
theorem start_order_trigger_failure_witness :
    createOrder restockAlert (some "o9") false emptyStore
      = createOrder restockAlert (some "o9") true emptyStore :=
  (start_order_trigger_failure_rolls_nothing_back restockAlert "o9" emptyStore rfl).1

end Pharma
